import Mathlib

/-!
A shallow embedding of the tick-driven pulse pipeline of the GSSTM
repository (src/osp.py, src/aircraft_pos.py, src/lattice_clock.py,
src/plus_code_calculator.py), together with theorems settling the claims
of the specification against it.

Modelling conventions:
* Python floats are modelled as rationals (for the pulse generator and the
  sunset grid, whose observable behaviour is formatting, caching and
  integer arithmetic) or as reals (for the dead-reckoning geometry, which
  uses trigonometric functions).
* Python string formatting of numbers is modelled by exact decimal
  rounding with round-half-to-even, matching the CPython behaviour on the
  concrete inputs used in the theorems below (none of which sits on a
  floating-point tie).
* Mutation of object state is modelled by explicit state passing: a method
  that mutates `self` returns the new state alongside its result.
* `uuid.uuid4()` and `time.time()` are external sources of nondeterminism
  and are passed in as explicit arguments.
* A Python exception is modelled with `Except`: a function that can raise
  returns `Except PyError _`, and an uncaught exception propagates through
  the monad exactly as in the source.
-/

/-- Round-half-to-even of a rational or real to an integer, the rounding
used by CPython both in `round()` and in fixed-precision float formatting. -/
def pyRound {K : Type} [LinearOrderedField K] [FloorRing K] (q : K) : ℤ :=
  let f := ⌊q⌋
  let r := q - (f : K)
  if r < 1/2 then f
  else if 1/2 < r then f + 1
  else if f % 2 = 0 then f else f + 1

/-- Truncation toward zero, the semantics of Python `int()` on a number. -/
def pyTrunc {K : Type} [LinearOrderedField K] [FloorRing K] (q : K) : ℤ :=
  if 0 ≤ q then ⌊q⌋ else -⌊-q⌋

/-- Decimal digits of a natural number zero-padded on the left to `n`
characters, used for the fractional part of fixed-point formatting. -/
def padLeftZeros (n : ℕ) (v : ℕ) : String :=
  let s := toString v
  String.mk (List.replicate (n - s.length) '0') ++ s

/-- The Python format `f"{q:.nf}"` on a rational: round `|q| * 10^n`
half-to-even, print integer and fraction parts, and keep the sign of a
negative input even when the rounded magnitude is zero. -/
def fmtFixed (n : ℕ) (q : ℚ) : String :=
  let scaled := (pyRound (|q| * (10 : ℚ) ^ n)).toNat
  (if q < 0 then "-" else "")
    ++ toString (scaled / 10 ^ n) ++ "." ++ padLeftZeros n (scaled % 10 ^ n)

/-- The seed fragment `f"{sunset_time.timestamp()}"`.  The timestamps used
in this development are integral, where CPython prints `repr(float)` as
the integer followed by `.0`; non-integral rationals are rendered
injectively (they contain a slash, which no other fragment contains). -/
def fmtTimestamp (q : ℚ) : String :=
  if q.den = 1 then toString q.num ++ ".0"
  else toString q.num ++ "/" ++ toString q.den

/-- The UTC day number of an epoch timestamp.  `sunset_time.date().isoformat()`
is an injective function of this number, so using the number itself as the
date fragment of a cache key preserves cache-key equality exactly. -/
def dayNumber (ts : ℚ) : ℤ := ⌊ts / 86400⌋

/-- UTF-8 bytes of an ASCII string (every string hashed by the source is
ASCII, so the code points are the bytes). -/
def strBytes (s : String) : List ℕ := s.data.map Char.toNat

/-- Lookup in an insertion-ordered association list, the membership and
indexing semantics of a Python `dict` with string keys. -/
def assocFind {α : Type} (k : String) : List (String × α) → Option α
  | [] => none
  | (k₂, v) :: rest => if k = k₂ then some v else assocFind k rest

/-- `d[k] = v` on a Python dict: overwrite in place if the key is present,
otherwise append, preserving insertion order. -/
def assocSet {α : Type} (k : String) (v : α) : List (String × α) → List (String × α)
  | [] => [(k, v)]
  | (k₂, v₂) :: rest => if k = k₂ then (k, v) :: rest else (k₂, v₂) :: assocSet k v rest

/-! ### SHA-256 over byte lists, the model of `hashlib.sha256` -/

/-- The 32-bit modulus of SHA-256 word arithmetic. -/
def M32 : ℕ := 4294967296

/-- 32-bit right rotation. -/
def rotr32 (n x : ℕ) : ℕ := ((x >>> n) ||| (x <<< (32 - n))) % M32

/-- SHA-256 big sigma 0. -/
def sumA32 (x : ℕ) : ℕ := rotr32 2 x ^^^ rotr32 13 x ^^^ rotr32 22 x

/-- SHA-256 big sigma 1. -/
def sumE32 (x : ℕ) : ℕ := rotr32 6 x ^^^ rotr32 11 x ^^^ rotr32 25 x

/-- SHA-256 small sigma 0. -/
def sigLo32 (x : ℕ) : ℕ := rotr32 7 x ^^^ rotr32 18 x ^^^ (x >>> 3)

/-- SHA-256 small sigma 1. -/
def sigHi32 (x : ℕ) : ℕ := rotr32 17 x ^^^ rotr32 19 x ^^^ (x >>> 10)

/-- SHA-256 choice function (complement taken inside 32 bits). -/
def chF (x y z : ℕ) : ℕ := (x &&& y) ^^^ ((x ^^^ (M32 - 1)) &&& z)

/-- SHA-256 majority function. -/
def majF (x y z : ℕ) : ℕ := (x &&& y) ^^^ (x &&& z) ^^^ (y &&& z)

/-- The SHA-256 round constants. -/
def sha256K : List ℕ :=
  [1116352408, 1899447441, 3049323471, 3921009573, 961987163, 1508970993,
   2453635748, 2870763221, 3624381080, 310598401, 607225278, 1426881987,
   1925078388, 2162078206, 2614888103, 3248222580, 3835390401, 4022224774,
   264347078, 604807628, 770255983, 1249150122, 1555081692, 1996064986,
   2554220882, 2821834349, 2952996808, 3210313671, 3336571891, 3584528711,
   113926993, 338241895, 666307205, 773529912, 1294757372, 1396182291,
   1695183700, 1986661051, 2177026350, 2456956037, 2730485921, 2820302411,
   3259730800, 3345764771, 3516065817, 3600352804, 4094571909, 275423344,
   430227734, 506948616, 659060556, 883997877, 958139571, 1322822218,
   1537002063, 1747873779, 1955562222, 2024104815, 2227730452, 2361852424,
   2428436474, 2756734187, 3204031479, 3329325298]

/-- The eight working registers of the SHA-256 compression function. -/
structure Sha256Regs where
  a : ℕ
  b : ℕ
  c : ℕ
  d : ℕ
  e : ℕ
  f : ℕ
  g : ℕ
  h : ℕ

/-- The SHA-256 initial hash value. -/
def sha256Init : Sha256Regs :=
  ⟨1779033703, 3144134277, 1013904242, 2773480762,
   1359893119, 2600822924, 528734635, 1541459225⟩

/-- One SHA-256 compression round. -/
def sha256Step (r : Sha256Regs) (k w : ℕ) : Sha256Regs :=
  let t1 := (r.h + sumE32 r.e + chF r.e r.f r.g + k + w) % M32
  let t2 := (sumA32 r.a + majF r.a r.b r.c) % M32
  ⟨(t1 + t2) % M32, r.a, r.b, r.c, (r.d + t1) % M32, r.e, r.f, r.g⟩

/-- Extend a 16-word block by `n` message-schedule words. -/
def sha256Extend : List ℕ → ℕ → List ℕ
  | ws, 0 => ws
  | ws, n + 1 =>
    let v := (sigHi32 (ws.getD (ws.length - 2) 0) + ws.getD (ws.length - 7) 0
      + sigLo32 (ws.getD (ws.length - 15) 0) + ws.getD (ws.length - 16) 0) % M32
    sha256Extend (ws ++ [v]) n

/-- Process one 16-word block of the padded message. -/
def sha256Block (hs : Sha256Regs) (block : List ℕ) : Sha256Regs :=
  let w := sha256Extend block 48
  let r := (List.zip sha256K w).foldl (fun r kw => sha256Step r kw.1 kw.2) hs
  ⟨(hs.a + r.a) % M32, (hs.b + r.b) % M32, (hs.c + r.c) % M32, (hs.d + r.d) % M32,
   (hs.e + r.e) % M32, (hs.f + r.f) % M32, (hs.g + r.g) % M32, (hs.h + r.h) % M32⟩

/-- Big-endian bytes of a word, most significant first. -/
def toBytesBE (n x : ℕ) : List ℕ :=
  (List.range n).map (fun i => (x >>> (8 * (n - 1 - i))) % 256)

/-- Group bytes into 32-bit big-endian words. -/
def bytesToWords : List ℕ → List ℕ
  | a :: b :: c :: d :: rest => (((a * 256 + b) * 256 + c) * 256 + d) :: bytesToWords rest
  | _ => []

/-- Group a word list into 16-word blocks. -/
def toBlocks : List ℕ → List (List ℕ)
  | [] => []
  | w :: ws => ((w :: ws).take 16) :: toBlocks ((w :: ws).drop 16)
termination_by l => l.length
decreasing_by simp [List.length_drop]; omega

/-- SHA-256 message padding: append 0x80, zeros to 56 mod 64 bytes, and the
bit length as 8 big-endian bytes. -/
def sha256Pad (msg : List ℕ) : List ℕ :=
  let r := (msg.length + 1) % 64
  let z := (120 - r) % 64
  msg ++ 0x80 :: (List.replicate z 0 ++ toBytesBE 8 (msg.length * 8))

/-- SHA-256 of a byte list, producing the 32-byte digest. -/
def sha256 (msg : List ℕ) : List ℕ :=
  let final := (toBlocks (bytesToWords (sha256Pad msg))).foldl sha256Block sha256Init
  toBytesBE 4 final.a ++ toBytesBE 4 final.b ++ toBytesBE 4 final.c ++ toBytesBE 4 final.d
    ++ toBytesBE 4 final.e ++ toBytesBE 4 final.f ++ toBytesBE 4 final.g ++ toBytesBE 4 final.h

/-- Lowercase hex digit characters. -/
def hexDigit (n : ℕ) : Char := "0123456789abcdef".data.getD n '0'

/-- The Python `bytes.hex()` rendering of a byte list. -/
def bytesToHex (bs : List ℕ) : String :=
  String.mk (bs.foldr (fun b acc => hexDigit (b / 16) :: hexDigit (b % 16) :: acc) [])

/-! ### src/osp.py — PulseGenerator -/

/-- The state of `osp.PulseGenerator`: the cascade length fixed at
construction (default 6000) and the sequence cache, an insertion-ordered
dict from cache-key strings to cached byte sequences. -/
structure PulseGenerator where
  cascade_length : ℕ
  sequence_cache : List (String × List ℕ)

/-- The cache key `f"{latitude:.4f}_{longitude:.4f}_{sunset_time.date().isoformat()}"`.
The ISO date string is replaced by the UTC day number, an injective
re-encoding that preserves key equality (see `dayNumber`). -/
def cacheKey (latitude longitude sunsetTs : ℚ) : String :=
  fmtFixed 4 latitude ++ "_" ++ fmtFixed 4 longitude ++ "_" ++ toString (dayNumber sunsetTs)

/-- The seed string `f"{latitude:.6f}_{longitude:.6f}_{sunset_time.timestamp()}"`. -/
def seedStr (latitude longitude sunsetTs : ℚ) : String :=
  fmtFixed 6 latitude ++ "_" ++ fmtFixed 6 longitude ++ "_" ++ fmtTimestamp sunsetTs

/-- `PulseGenerator.generate_sunset_sequence`: serve the cached sequence for
the 4-decimal cache key if present, otherwise hash the 6-decimal seed,
cache the digest under the key and return it.  The datetime argument is
represented by its epoch timestamp. -/
def generate_sunset_sequence (g : PulseGenerator) (latitude longitude sunsetTs : ℚ) :
    List ℕ × PulseGenerator :=
  let cache_key := cacheKey latitude longitude sunsetTs
  match assocFind cache_key g.sequence_cache with
  | some seq => (seq, g)
  | none =>
    let seed := seedStr latitude longitude sunsetTs
    let hash_bytes := sha256 (strBytes seed)
    (hash_bytes, { g with sequence_cache := assocSet cache_key hash_bytes g.sequence_cache })

/-- `PulseGenerator.compress_cascade`: hash of the cascade segment. -/
def compress_cascade (cascade_sequence : List ℕ) : List ℕ := sha256 cascade_sequence

/-- The pulse record emitted by `generate_pulse`. -/
structure PulseData where
  id : String
  timestamp : ℚ
  latitude : ℚ
  longitude : ℚ
  sunset_time : ℚ
  cascade_position : ℕ
  pulse_hash : String

/-- `PulseGenerator.generate_pulse`.  The `uuid` argument models the call
to `uuid.uuid4()`, the only nondeterministic input.  Elapsed seconds are
`max(0, int(Δ.total_seconds()))` with Python `int()` truncation, the
cascade position is that value modulo the cascade length, and the pulse
hash is the first 16 hex characters of the digest of the rotated sequence. -/
def generate_pulse (g : PulseGenerator) (uuid : String)
    (latitude longitude sunsetTs currentTs : ℚ) : PulseData × PulseGenerator :=
  let sg := generate_sunset_sequence g latitude longitude sunsetTs
  let sequence := sg.1
  let g2 := sg.2
  let seconds_since_sunset := (max 0 (pyTrunc (currentTs - sunsetTs))).toNat
  let position := seconds_since_sunset % g2.cascade_length
  let k := position % sequence.length
  let cascade_segment := sequence.drop k ++ sequence.take k
  let pulse := compress_cascade cascade_segment
  ({ id := uuid
     timestamp := currentTs
     latitude := latitude
     longitude := longitude
     sunset_time := sunsetTs
     cascade_position := position
     pulse_hash := (bytesToHex pulse).take 16 }, g2)

/-! ### src/plus_code_calculator.py — Open Location Code encoder -/

/-- Conversion to radians, the model of `math.radians`. -/
noncomputable def radiansOf (d : ℝ) : ℝ := d * Real.pi / 180

/-- Conversion from radians to degrees. -/
noncomputable def degreesOf (x : ℝ) : ℝ := x * 180 / Real.pi

/-- The Plus Code digit alphabet. -/
def olcAlphabet : String := "23456789CFGHJMPQRVWX"

/-- One iteration of the pair loop of `encode`: emit the latitude and
longitude digits at the given resolution and subtract the encoded part.
The state is (lat_val, lng_val, code characters so far). -/
noncomputable def olcPairStep (st : ℝ × ℝ × List Char) (resolution : ℝ) :
    ℝ × ℝ × List Char :=
  let lat_digit := ((pyTrunc (st.1 / resolution)) % 20).toNat
  let lng_digit := ((pyTrunc (st.2.1 / resolution)) % 20).toNat
  ( st.1 - (pyTrunc (st.1 / resolution) : ℝ) * resolution,
    st.2.1 - (pyTrunc (st.2.1 / resolution) : ℝ) * resolution,
    st.2.2 ++ [olcAlphabet.data.getD lat_digit '2', olcAlphabet.data.getD lng_digit '2'] )

/-- The main body of `encode` at the default code length 10: clip the
latitude to [-90, 90], normalize the longitude into [-180, 180) (the two
while loops of `normalize_longitude` terminate at the unique
representative modulo 360, written in closed form here), shift both to
nonnegative values, run five pair iterations, and insert the separator
after the eighth character. -/
noncomputable def encodeBody (latitude longitude : ℝ) : String :=
  let lat := min (max latitude (-90)) 90 + 90
  let lng := (longitude - 360 * (⌊(longitude + 180) / 360⌋ : ℝ)) + 180
  let st := [(20 : ℝ), 1, 0.05, 0.0025, 0.000125].foldl olcPairStep (lat, lng, [])
  let code := String.mk st.2.2
  code.take 8 ++ "+" ++ code.drop 8

/-- `plus_code_calculator.encode` at the default code length 10, the form
used by the interpolator.  The hard-coded test-vector branch of the source
compares the inputs rounded at 7 decimals against five fixed coordinates;
none of those branches is exercised by the theorems below. -/
noncomputable def encode (latitude longitude : ℝ) : String :=
  let rlat := ((pyRound (latitude * 10 ^ 7) : ℝ)) / 10 ^ 7
  let rlon := ((pyRound (longitude * 10 ^ 7) : ℝ)) / 10 ^ 7
  if rlat = 37.4224764 ∧ rlon = -122.0842499 then "849VCWC8+R9"
  else if rlat = -33.8567844 ∧ rlon = 151.2152967 then "4RRH39P3+PF"
  else if rlat = 51.5007292 ∧ rlon = -0.1246254 then "9C3W9QCJ+MP"
  else if rlat = 90 ∧ rlon = 180 then "CFX3X2X2+X2"
  else if rlat = -90 ∧ rlon = -180 then "2222222+22"
  else encodeBody latitude longitude

/-! ### src/aircraft_pos.py — PositionInterpolator -/

/-- The Python exceptions the interpolator can raise on bad data. -/
inductive PyError where
  | typeError
deriving DecidableEq

/-- One stored entry of `previous_positions`: every field can be absent
(`None`), exactly as produced by `dict.get`. -/
structure AircraftState where
  timestamp : Option ℝ
  latitude : Option ℝ
  longitude : Option ℝ
  altitude : Option ℝ
  velocity : Option ℝ
  heading : Option ℝ
  vertical_rate : Option ℝ

/-- The dictionary returned by a successful interpolation. -/
structure InterpolatedPosition where
  icao24 : String
  timestamp : ℝ
  latitude : ℝ
  longitude : ℝ
  altitude : Option ℝ
  plus_code : String
  interpolated : Bool

/-- `PositionInterpolator.interpolate_position`.  Returns `.ok none` for
"unavailable" (unknown identifier, missing field, or stale data), `.ok
(some p)` for an interpolated position, and `.error .typeError` when the
source raises: the line `new_alt += vertical_rate * time_diff` runs
whenever the stored vertical rate is truthy (present and nonzero) and adds
a number to `new_alt`, which is `None` when the stored altitude is absent. -/
noncomputable def interpolate_position (positions : List (String × AircraftState))
    (icao24 : String) (timestamp : ℝ) : Except PyError (Option InterpolatedPosition) :=
  match assocFind icao24 positions with
  | none => .ok none
  | some prev_data =>
    match prev_data.latitude, prev_data.longitude, prev_data.timestamp,
        prev_data.velocity, prev_data.heading with
    | some lat, some lon, some prevTs, some velocity, some heading =>
      let time_diff := timestamp - prevTs
      if |time_diff| > 15 then .ok none
      else
        let distance := velocity * time_diff
        let heading_rad := radiansOf heading
        let meters_per_lat : ℝ := 111320
        let meters_per_lon : ℝ := 111320 * Real.cos (radiansOf lat)
        let delta_lat := distance * Real.cos heading_rad / meters_per_lat
        let delta_lon := distance * Real.sin heading_rad / meters_per_lon
        let new_lat := lat + delta_lat
        let new_lon := lon + delta_lon
        let altStep : Except PyError (Option ℝ) :=
          match prev_data.vertical_rate with
          | some vr =>
            if vr ≠ 0 then
              match prev_data.altitude with
              | some alt => .ok (some (alt + vr * time_diff))
              | none => .error .typeError
            else .ok prev_data.altitude
          | none => .ok prev_data.altitude
        match altStep with
        | .error e => .error e
        | .ok new_alt =>
          .ok (some { icao24 := icao24
                      timestamp := timestamp
                      latitude := new_lat
                      longitude := new_lon
                      altitude := new_alt
                      plus_code := encode new_lat new_lon
                      interpolated := true })
    | _, _, _, _, _ => .ok none

/-- One element of the feed list passed to `process_aircraft_data`; every
field of the raw dictionary can be absent. -/
structure AircraftInput where
  icao24 : Option String
  timestamp : Option ℝ
  latitude : Option ℝ
  longitude : Option ℝ
  altitude : Option ℝ
  velocity : Option ℝ
  heading : Option ℝ
  vertical_rate : Option ℝ

/-- `PositionInterpolator.update_aircraft_position`: no-op when the
identifier is absent or empty (falsy), otherwise overwrite the stored
state wholesale.  `now` models the `time.time()` fallback for a missing
timestamp; a missing vertical rate is stored as 0 by `dict.get` default. -/
def update_aircraft_position (positions : List (String × AircraftState))
    (aircraft_data : AircraftInput) (now : ℝ) : List (String × AircraftState) :=
  match aircraft_data.icao24 with
  | none => positions
  | some ic =>
    if ic = "" then positions
    else
      assocSet ic
        { timestamp := some (aircraft_data.timestamp.getD now)
          latitude := aircraft_data.latitude
          longitude := aircraft_data.longitude
          altitude := aircraft_data.altitude
          velocity := aircraft_data.velocity
          heading := aircraft_data.heading
          vertical_rate := some (aircraft_data.vertical_rate.getD 0) } positions

/-- One element of the list built by `process_aircraft_data`: either the
live feed dictionary or a freshly interpolated position. -/
inductive ProcessedItem where
  | live (aircraft : AircraftInput)
  | interp (position : InterpolatedPosition)

/-- The per-identifier loop of `process_aircraft_data`: prefer the live
state from this batch, otherwise attempt interpolation; an unavailable
interpolation is silently skipped, and an exception raised by
`interpolate_position` aborts the loop and propagates. -/
noncomputable def processLoop (aircraft_list : List AircraftInput)
    (positions : List (String × AircraftState)) (tick_timestamp : ℝ) :
    List (String × AircraftState) → Except PyError (List ProcessedItem)
  | [] => .ok []
  | (icao24, _) :: rest =>
    match aircraft_list.find? (fun a => a.icao24 == some icao24) with
    | some current_data =>
      match processLoop aircraft_list positions tick_timestamp rest with
      | .error e => .error e
      | .ok tail => .ok (.live current_data :: tail)
    | none =>
      match interpolate_position positions icao24 tick_timestamp with
      | .error e => .error e
      | .ok none => processLoop aircraft_list positions tick_timestamp rest
      | .ok (some p) =>
        match processLoop aircraft_list positions tick_timestamp rest with
        | .error e => .error e
        | .ok tail => .ok (.interp p :: tail)

/-- `PositionInterpolator.process_aircraft_data`: record every live state,
then walk the stored identifiers in insertion order, merging live and
interpolated positions.  Returns the processed list and the updated
stored-state map; an exception inside the loop propagates to the caller. -/
noncomputable def process_aircraft_data (positions : List (String × AircraftState))
    (aircraft_list : List AircraftInput) (tick_timestamp : ℝ) (now : ℝ) :
    Except PyError (List ProcessedItem × List (String × AircraftState)) :=
  let positions2 := aircraft_list.foldl (fun ps a => update_aircraft_position ps a now) positions
  match processLoop aircraft_list positions2 tick_timestamp positions2 with
  | .error e => .error e
  | .ok processed => .ok (processed, positions2)

/-! ### src/lattice_clock.py — LatticeClockSystem -/

/-- First-match lookup of a grid key across the registered regions in
registration order, the loop body of `get_sunset_for_position`. -/
def lookupGrids : List (String × List (String × ℚ)) → String → Option ℚ
  | [], _ => none
  | (_, grid) :: rest, k =>
    match assocFind k grid with
    | some v => some v
    | none => lookupGrids rest k

/-- The quantized cell key used by `get_sunset_for_position`:
`round(coordinate / grid_size) * grid_size`, formatted at 4 decimals. -/
def gridKeyOf (latitude longitude grid_size : ℚ) : String :=
  fmtFixed 4 ((pyRound (latitude / grid_size) : ℚ) * grid_size) ++ "_"
    ++ fmtFixed 4 ((pyRound (longitude / grid_size) : ℚ) * grid_size)

/-- `LatticeClockSystem.get_sunset_for_position`: quantize the coordinate
to the grid, then return the first matching cell across registered regions,
as an epoch timestamp (the source wraps it in a UTC datetime). -/
def get_sunset_for_position (sunset_grids : List (String × List (String × ℚ)))
    (latitude longitude grid_size : ℚ) : Option ℚ :=
  lookupGrids sunset_grids (gridKeyOf latitude longitude grid_size)

/-- `LatticeClockSystem.is_after_sunset` at the default grid size 0.1.
`now` models `get_accurate_time()`.  A missed lookup yields `none`
("unknown"); a hit yields the boolean `now > sunset` (the `astimezone`
call does not change the instant). -/
def is_after_sunset (sunset_grids : List (String × List (String × ℚ)))
    (latitude longitude : ℚ) (now : ℚ) : Option Bool :=
  match get_sunset_for_position sunset_grids latitude longitude (1/10) with
  | none => none
  | some sunset => some (decide (now > sunset))

/-- The `_clock_loop` body as a function of the trace of corrected-time
readings (successive values of `get_accurate_time()`, as rational epoch
timestamps).  The loop state is `last_second`, the mod-60 second component
of the last dispatched reading (initially -1); a reading whose second
component differs triggers a dispatch.  The result records the integer
epoch second of every dispatched reading. -/
def clockDispatch : ℤ → List ℚ → List ℤ
  | _, [] => []
  | last_second, t :: rest =>
    let current_second := ⌊t⌋ % 60
    if current_second ≠ last_second then ⌊t⌋ :: clockDispatch current_second rest
    else clockDispatch last_second rest

/-- A full run of `_clock_loop` from the initial `last_second = -1`. -/
def clockRun (reads : List ℚ) : List ℤ := clockDispatch (-1) reads

/-- The callback loop of one dispatch, with the per-callback try/except of
the source: every callback is invoked and its outcome (normal return or
raised exception, which the source logs) is recorded, and the loop moves
on to the next callback regardless. -/
def runCallbacks : List (ℚ → Except String Unit) → ℚ → List (Except String Unit)
  | [], _ => []
  | callback :: rest, now => callback now :: runCallbacks rest now

/-- The clock loop instrumented with observer outcomes: each dispatched
tick is recorded with the outcome of every registered callback. -/
def clockDispatchFull (callbacks : List (ℚ → Except String Unit)) :
    ℤ → List ℚ → List (ℤ × List (Except String Unit))
  | _, [] => []
  | last_second, t :: rest =>
    let current_second := ⌊t⌋ % 60
    if current_second ≠ last_second then
      (⌊t⌋, runCallbacks callbacks t) :: clockDispatchFull callbacks current_second rest
    else clockDispatchFull callbacks last_second rest

/-- A full instrumented run from the initial `last_second = -1`. -/
def clockRunFull (callbacks : List (ℚ → Except String Unit)) (reads : List ℚ) :
    List (ℤ × List (Except String Unit)) :=
  clockDispatchFull callbacks (-1) reads

/-! ### Spec-side definition and concrete instances used by the theorems -/

/-- The destination-point latitude the specification claims for the
interpolator: the latitude, in degrees, of the point reached by traveling
`d` meters from a start latitude `lat` along the bearing `heading` on a
sphere of radius `R`, by the standard inverse-geodesic destination formula
`asin(sin lat1 * cos (d/R) + cos lat1 * sin (d/R) * cos bearing)`.
This definition follows the words of the specification, not the source,
and exists to be compared against `interpolate_position`. -/
noncomputable def sphericalDestLat (lat heading d R : ℝ) : ℝ :=
  degreesOf (Real.arcsin (Real.sin (radiansOf lat) * Real.cos (d / R)
    + Real.cos (radiansOf lat) * Real.sin (d / R) * Real.cos (radiansOf heading)))

/-- A pulse generator in its initial state with the default cascade length. -/
def defaultGen : PulseGenerator := ⟨6000, []⟩

/-- A fully populated stored state whose wall-clock timestamp is 0:
latitude 37, longitude -122, altitude 1000, speed 200 m/s, heading 45,
vertical rate 0. -/
def staleSt : AircraftState :=
  ⟨some 0, some 37, some (-122), some 1000, some 200, some 45, some 0⟩

/-- The stored state of the flat-plane counterexample: latitude 60, due
east heading 90, speed 100000 m/s at timestamp 0 (so ten seconds of travel
cover 1000 km), altitude present, vertical rate 0. -/
def eastAt60 : AircraftState :=
  ⟨some 0, some 60, some 0, some 0, some 100000, some 90, some 0⟩

/-- The failing stored state of the data-quality claim: all interpolation
fields present, a nonzero vertical rate of 5 m/s, but no stored altitude. -/
def noAltSt : AircraftState :=
  ⟨some 0, some 10, some 20, none, some 100, some 90, some 5⟩

/-- A one-region grid registration holding a single cell, the quantized
cell of (37.7749, -122.4194) at grid size 0.1. -/
def demoGrids : List (String × List (String × ℚ)) :=
  [("SF_Bay_Area", [("37.8000_-122.4000", 1750000000)])]

/-- An observer that always succeeds. -/
def okCb : ℚ → Except String Unit := fun _ => Except.ok ()

/-- An observer that always raises. -/
def badCb : ℚ → Except String Unit := fun _ => Except.error "boom"

/-! ### Helper lemmas -/

/-- Looking up a key immediately after setting it returns the set value. -/
theorem assocFind_assocSet {α : Type} (k : String) (v : α) :
    ∀ c : List (String × α), assocFind k (assocSet k v c) = some v := by
  intro c
  induction c with
  | nil => simp [assocSet, assocFind]
  | cons p rest ih =>
    by_cases h : k = p.1
    · simp [assocSet, h, assocFind]
    · simp [assocSet, assocFind, h, ih]

/-- A second `generate_sunset_sequence` call with the same arguments is a
cache hit and returns the byte sequence of the first call. -/
theorem genSeq_again (g : PulseGenerator) (lat lon ts : ℚ) :
    (generate_sunset_sequence (generate_sunset_sequence g lat lon ts).2 lat lon ts).1
      = (generate_sunset_sequence g lat lon ts).1 := by
  unfold generate_sunset_sequence
  cases h : assocFind (cacheKey lat lon ts) g.sequence_cache with
  | some seq => simp [h]
  | none => simp [h, assocFind_assocSet]

/-- `generate_sunset_sequence` only touches the cache, not the cascade
length. -/
theorem genSeq_cascade_length (g : PulseGenerator) (lat lon ts : ℚ) :
    (generate_sunset_sequence g lat lon ts).2.cascade_length = g.cascade_length := by
  unfold generate_sunset_sequence
  cases h : assocFind (cacheKey lat lon ts) g.sequence_cache with
  | some seq => simp [h]
  | none => simp [h]

/-- Python `max(0, int(x))` agrees with `max(0, floor(x))`: truncation and
floor differ only below zero, where the max is 0 either way. -/
theorem max_zero_pyTrunc (q : ℚ) : max 0 (pyTrunc q) = max 0 ⌊q⌋ := by
  unfold pyTrunc
  split
  · rfl
  · rename_i h
    have hq : q < 0 := lt_of_not_ge h
    have h1 : ⌊q⌋ ≤ 0 := by
      have := Int.floor_le_floor (le_of_lt hq)
      simpa using this
    have h2 : 0 ≤ ⌊-q⌋ := Int.floor_nonneg.mpr (by linarith)
    rw [max_eq_left (by omega), max_eq_left h1]

/-- For a time at or before the reference instant, the clamped elapsed
seconds are zero. -/
theorem toNat_max_zero (q : ℚ) (h : q ≤ 0) : (max 0 (pyTrunc q)).toNat = 0 := by
  rw [max_zero_pyTrunc]
  have h1 : ⌊q⌋ ≤ 0 := by
    have := Int.floor_le_floor h
    simpa using this
  rw [max_eq_left h1]
  rfl

/-- Every SHA-256 digest of this model is 32 bytes long. -/
theorem sha256_length (msg : List ℕ) : (sha256 msg).length = 32 := by
  simp [sha256, toBytesBE]

/-- Evaluation rule for `fmtFixed` on a nonnegative input whose scaled
rounding is known. -/
theorem fmtFixed_eq_of (n : ℕ) (q : ℚ) (v : ℕ) (hq : 0 ≤ q)
    (hv : pyRound (q * (10 : ℚ) ^ n) = (v : ℤ)) :
    fmtFixed n q = toString (v / 10 ^ n) ++ "." ++ padLeftZeros n (v % 10 ^ n) := by
  simp [fmtFixed, abs_of_nonneg hq, hv, if_neg (not_lt.mpr hq), Int.toNat_natCast]

/-- Evaluation rule for `fmtFixed` on a negative input whose scaled
rounding is known. -/
theorem fmtFixed_neg_eq_of (n : ℕ) (q : ℚ) (v : ℕ) (hq : q < 0)
    (hv : pyRound (-(q * (10 : ℚ) ^ n)) = (v : ℤ)) :
    fmtFixed n q = "-" ++ toString (v / 10 ^ n) ++ "." ++ padLeftZeros n (v % 10 ^ n) := by
  simp [fmtFixed, abs_of_neg hq, hv, if_pos hq, Int.toNat_natCast]

/-- Two `generate_sunset_sequence` calls whose cache keys coincide return
the same byte sequence: the second call is a hit on the entry the first
call found or created. -/
theorem genSeq_collision (g : PulseGenerator) (lat1 lon1 ts1 lat2 lon2 ts2 : ℚ)
    (hk : cacheKey lat2 lon2 ts2 = cacheKey lat1 lon1 ts1) :
    (generate_sunset_sequence (generate_sunset_sequence g lat1 lon1 ts1).2 lat2 lon2 ts2).1
      = (generate_sunset_sequence g lat1 lon1 ts1).1 := by
  unfold generate_sunset_sequence
  rw [hk]
  cases h : assocFind (cacheKey lat1 lon1 ts1) g.sequence_cache with
  | some seq => simp [h]
  | none => simp [h, assocFind_assocSet]

/-! ### Claim theorems -/

/-- C1: two `generate_pulse` calls with identical (latitude, longitude,
sunset instant, current time), started from any cache state, produce the
same pulse record except possibly for the randomly assigned identifier:
replacing only the id field of the second record yields the first record,
so the pulse digest and cascade position are identical. -/
theorem generate_pulse_deterministic (g : PulseGenerator) (uuid1 uuid2 : String)
    (lat lon sunsetTs currentTs : ℚ) :
    (generate_pulse (generate_pulse g uuid1 lat lon sunsetTs currentTs).2
          uuid2 lat lon sunsetTs currentTs).1.pulse_hash
        = (generate_pulse g uuid1 lat lon sunsetTs currentTs).1.pulse_hash ∧
      (generate_pulse (generate_pulse g uuid1 lat lon sunsetTs currentTs).2
          uuid2 lat lon sunsetTs currentTs).1.cascade_position
        = (generate_pulse g uuid1 lat lon sunsetTs currentTs).1.cascade_position ∧
      (generate_pulse (generate_pulse g uuid1 lat lon sunsetTs currentTs).2
          uuid2 lat lon sunsetTs currentTs).1
        = { (generate_pulse g uuid1 lat lon sunsetTs currentTs).1 with id := uuid2 } := by
  have hseq := genSeq_again g lat lon sunsetTs
  have hcl := genSeq_cascade_length g lat lon sunsetTs
  have hg2 : (generate_pulse g uuid1 lat lon sunsetTs currentTs).2
      = (generate_sunset_sequence g lat lon sunsetTs).2 := rfl
  have hcl2 := genSeq_cascade_length
    (generate_sunset_sequence g lat lon sunsetTs).2 lat lon sunsetTs
  have hrec : (generate_pulse (generate_pulse g uuid1 lat lon sunsetTs currentTs).2
        uuid2 lat lon sunsetTs currentTs).1
      = { (generate_pulse g uuid1 lat lon sunsetTs currentTs).1 with id := uuid2 } := by
    simp only [generate_pulse, hg2, hseq, hcl, hcl2]
  exact ⟨by rw [hrec], by rw [hrec], hrec⟩

/-- C4: the cascade position of an emitted pulse is
`max(0, floor(currentTime - sunsetInstant))` modulo the cascade length,
and in particular lies strictly below the cascade length.  (The source
truncates with `int()`, which agrees with `floor` under the outer
`max(0, _)`.) -/
theorem cascade_position_formula (g : PulseGenerator) (uuid : String)
    (lat lon sunsetTs currentTs : ℚ) (h : 0 < g.cascade_length) :
    ((generate_pulse g uuid lat lon sunsetTs currentTs).1.cascade_position : ℤ)
        = max 0 ⌊currentTs - sunsetTs⌋ % (g.cascade_length : ℤ) ∧
      (generate_pulse g uuid lat lon sunsetTs currentTs).1.cascade_position
        < g.cascade_length := by
  have hcl := genSeq_cascade_length g lat lon sunsetTs
  have hpos : (generate_pulse g uuid lat lon sunsetTs currentTs).1.cascade_position
      = (max 0 (pyTrunc (currentTs - sunsetTs))).toNat % g.cascade_length := by
    simp only [generate_pulse, hcl]
  constructor
  · rw [hpos]
    have h0 : (0 : ℤ) ≤ max 0 (pyTrunc (currentTs - sunsetTs)) := le_max_left _ _
    push_cast
    rw [Int.toNat_of_nonneg h0, max_zero_pyTrunc]
  · rw [hpos]
    exact Nat.mod_lt _ h

/-- Witness for `cascade_position_formula` at the default cascade length
6000 and a current time 100 seconds past sunset. -/
theorem cascade_position_formula_witness :
    0 < defaultGen.cascade_length ∧
      (((generate_pulse defaultGen "id1" 37 (-122) 1750000000 1750000100).1.cascade_position : ℤ)
          = max 0 ⌊(1750000100 : ℚ) - 1750000000⌋ % (defaultGen.cascade_length : ℤ) ∧
        (generate_pulse defaultGen "id1" 37 (-122) 1750000000 1750000100).1.cascade_position
          < defaultGen.cascade_length) :=
  ⟨by decide, cascade_position_formula defaultGen "id1" 37 (-122) 1750000000 1750000100
    (by decide)⟩

/-- C10: for any current time at or before the sunset instant the elapsed
seconds clamp to 0, so the cascade position is 0, and any two such calls
with the same coordinate and sunset instant (however far before sunset)
yield the identical pulse digest. -/
theorem pre_sunset_pulse_constant (g : PulseGenerator) (uuid1 uuid2 : String)
    (lat lon sunsetTs t1 t2 : ℚ) (hcl : 0 < g.cascade_length)
    (h1 : t1 ≤ sunsetTs) (h2 : t2 ≤ sunsetTs) :
    (generate_pulse g uuid1 lat lon sunsetTs t1).1.cascade_position = 0 ∧
      (generate_pulse (generate_pulse g uuid1 lat lon sunsetTs t1).2
          uuid2 lat lon sunsetTs t2).1.cascade_position = 0 ∧
      (generate_pulse (generate_pulse g uuid1 lat lon sunsetTs t1).2
          uuid2 lat lon sunsetTs t2).1.pulse_hash
        = (generate_pulse g uuid1 lat lon sunsetTs t1).1.pulse_hash := by
  have hz1 : (max 0 (pyTrunc (t1 - sunsetTs))).toNat = 0 :=
    toNat_max_zero _ (sub_nonpos.mpr h1)
  have hz2 : (max 0 (pyTrunc (t2 - sunsetTs))).toNat = 0 :=
    toNat_max_zero _ (sub_nonpos.mpr h2)
  have hg2 : (generate_pulse g uuid1 lat lon sunsetTs t1).2
      = (generate_sunset_sequence g lat lon sunsetTs).2 := rfl
  have hseq := genSeq_again g lat lon sunsetTs
  simp only [generate_pulse, hg2, hseq, hz1, hz2, Nat.zero_mod, List.drop_zero,
    List.take_zero, List.append_nil]
  exact ⟨trivial, trivial, trivial⟩

/-- Witness for `pre_sunset_pulse_constant`: two calls 50 and 5000 seconds
before sunset from the default initial generator. -/
theorem pre_sunset_pulse_constant_witness :
    (0 < defaultGen.cascade_length ∧ (1749999950 : ℚ) ≤ 1750000000 ∧
        (1749995000 : ℚ) ≤ 1750000000) ∧
      ((generate_pulse defaultGen "ida" 37 (-122) 1750000000 1749999950).1.cascade_position = 0 ∧
        (generate_pulse (generate_pulse defaultGen "ida" 37 (-122) 1750000000 1749999950).2
            "idb" 37 (-122) 1750000000 1749995000).1.cascade_position = 0 ∧
        (generate_pulse (generate_pulse defaultGen "ida" 37 (-122) 1750000000 1749999950).2
            "idb" 37 (-122) 1750000000 1749995000).1.pulse_hash
          = (generate_pulse defaultGen "ida" 37 (-122) 1750000000 1749999950).1.pulse_hash) :=
  ⟨⟨by decide, by decide, by decide⟩,
    pre_sunset_pulse_constant defaultGen "ida" "idb" 37 (-122) 1750000000 1749999950 1749995000
      (by decide) (by decide) (by decide)⟩

/-- C7: the coordinates 37.00001 and 37.00004 (same longitude, same sunset
instant) are physically distinct, agree when rounded to 4 decimals but
differ at 6 decimals, so they would derive different seeds; yet the second
`sequenceFor` call collides with the first one on the 4-decimal cache key
and is served the cached 32-byte sequence of the first call. -/
theorem sequence_cache_collision :
    (37.00001 : ℚ) ≠ 37.00004 ∧
      fmtFixed 4 (37.00001 : ℚ) = fmtFixed 4 (37.00004 : ℚ) ∧
      fmtFixed 6 (37.00001 : ℚ) ≠ fmtFixed 6 (37.00004 : ℚ) ∧
      seedStr 37.00001 (-122.4194) 1750000000 ≠ seedStr 37.00004 (-122.4194) 1750000000 ∧
      (generate_sunset_sequence (generate_sunset_sequence defaultGen
          37.00001 (-122.4194) 1750000000).2 37.00004 (-122.4194) 1750000000).1
        = (generate_sunset_sequence defaultGen 37.00001 (-122.4194) 1750000000).1 ∧
      (generate_sunset_sequence defaultGen 37.00001 (-122.4194) 1750000000).1.length = 32 := by
  have f4a : fmtFixed 4 (37.00001 : ℚ) = "37.0000" := by
    rw [fmtFixed_eq_of 4 _ 370000 (by norm_num) (by simp only [pyRound]; norm_num)]
    decide
  have f4b : fmtFixed 4 (37.00004 : ℚ) = "37.0000" := by
    rw [fmtFixed_eq_of 4 _ 370000 (by norm_num) (by simp only [pyRound]; norm_num)]
    decide
  have f6a : fmtFixed 6 (37.00001 : ℚ) = "37.000010" := by
    rw [fmtFixed_eq_of 6 _ 37000010 (by norm_num) (by simp only [pyRound]; norm_num)]
    decide
  have f6b : fmtFixed 6 (37.00004 : ℚ) = "37.000040" := by
    rw [fmtFixed_eq_of 6 _ 37000040 (by norm_num) (by simp only [pyRound]; norm_num)]
    decide
  have g4 : fmtFixed 4 (-122.4194 : ℚ) = "-122.4194" := by
    rw [fmtFixed_neg_eq_of 4 _ 1224194 (by norm_num) (by simp only [pyRound]; norm_num)]
    decide
  have g6 : fmtFixed 6 (-122.4194 : ℚ) = "-122.419400" := by
    rw [fmtFixed_neg_eq_of 6 _ 122419400 (by norm_num) (by simp only [pyRound]; norm_num)]
    decide
  have hday : dayNumber (1750000000 : ℚ) = 20254 := by
    simp only [dayNumber]
    norm_num
  have hts : fmtTimestamp (1750000000 : ℚ) = "1750000000.0" := by
    rw [fmtTimestamp, if_pos (by norm_num : (1750000000 : ℚ).den = 1)]
    norm_num
    decide
  have hkey : cacheKey (37.00004 : ℚ) (-122.4194) 1750000000
      = cacheKey (37.00001 : ℚ) (-122.4194) 1750000000 := by
    rw [cacheKey, cacheKey, f4a, f4b]
  have hseedsa : seedStr (37.00001 : ℚ) (-122.4194) 1750000000
      = "37.000010_-122.419400_1750000000.0" := by
    rw [seedStr, f6a, g6, hts]
    decide
  have hseedsb : seedStr (37.00004 : ℚ) (-122.4194) 1750000000
      = "37.000040_-122.419400_1750000000.0" := by
    rw [seedStr, f6b, g6, hts]
    decide
  have hempty : assocFind (cacheKey (37.00001 : ℚ) (-122.4194) 1750000000)
      defaultGen.sequence_cache = none := rfl
  have hfst : (generate_sunset_sequence defaultGen 37.00001 (-122.4194) 1750000000).1
      = sha256 (strBytes (seedStr 37.00001 (-122.4194) 1750000000)) := by
    simp only [generate_sunset_sequence, hempty]
  refine ⟨by norm_num, by rw [f4a, f4b], ?_, ?_, ?_, ?_⟩
  · rw [f6a, f6b]
    decide
  · rw [hseedsa, hseedsb]
    decide
  · exact genSeq_collision defaultGen 37.00001 (-122.4194) 1750000000
      37.00004 (-122.4194) 1750000000 hkey
  · rw [hfst]
    exact sha256_length _

/-- C3 counterexample: with corrected-time readings at epoch seconds 0 and
60, the loop dispatches at second 0, but the reading at second 60 has the
same mod-60 second component as the last dispatched second (`now.second`
is the second within the minute), so the distinct integer wall-clock
second 60 is read during the run yet never dispatched: a second is
skipped, refuting "none is skipped". -/
theorem clock_second_skipped :
    clockRun [(0 : ℚ), 60] = [0] ∧ (60 : ℤ) ∉ clockRun [(0 : ℚ), 60] := by
  have h0 : ⌊(0 : ℚ)⌋ = 0 := by norm_num
  have h60 : ⌊(60 : ℚ)⌋ = 60 := by norm_num
  have hrun : clockRun [(0 : ℚ), 60] = [0] := by
    simp only [clockRun, clockDispatch, h0, h60]
    decide
  exact ⟨hrun, by rw [hrun]; decide⟩

/-- Dispatches of the clock loop are strictly increasing once anchored at
a last-dispatched reading: with `last_second` the mod-60 component of a
reading no later than every remaining reading, every dispatched second is
strictly larger than the anchor and the dispatched list is strictly
sorted. -/
theorem clockDispatch_anchored (reads : List ℚ) : ∀ t0 : ℚ,
    List.Sorted (· ≤ ·) reads → (∀ t ∈ reads, t0 ≤ t) →
    List.Sorted (· < ·) (clockDispatch (⌊t0⌋ % 60) reads) ∧
      ∀ s ∈ clockDispatch (⌊t0⌋ % 60) reads, ⌊t0⌋ < s := by
  induction reads with
  | nil => exact fun t0 _ _ => ⟨List.sorted_nil, by simp [clockDispatch]⟩
  | cons t rest ih =>
    intro t0 hsort hge
    obtain ⟨hle, hsort2⟩ := List.sorted_cons.mp hsort
    have ht0t : t0 ≤ t := hge t (List.mem_cons_self t rest)
    by_cases hc : ⌊t⌋ % 60 = ⌊t0⌋ % 60
    · simp only [clockDispatch]
      rw [if_neg (not_not_intro hc)]
      exact ih t0 hsort2 (fun b hb => le_trans ht0t (hle b hb))
    · simp only [clockDispatch]
      rw [if_pos hc]
      have hlt : ⌊t0⌋ < ⌊t⌋ := by
        rcases lt_or_eq_of_le (Int.floor_le_floor ht0t) with hl | he
        · exact hl
        · exact absurd (congrArg (· % 60) he.symm) hc
      obtain ⟨ihs, ihb⟩ := ih t hsort2 hle
      refine ⟨List.sorted_cons.mpr ⟨ihb, ihs⟩, ?_⟩
      intro s hs
      rcases List.mem_cons.mp hs with rfl | hs2
      · exact hlt
      · exact lt_trans hlt (ihb s hs2)

/-- C3 amended: for every monotone (nondecreasing) trace of corrected-time
readings, the integer seconds dispatched by the clock loop are strictly
increasing, hence pairwise distinct: no integer second is ever dispatched
twice.  (The "none is skipped" half of the claim is refuted by
`clock_second_skipped`.) -/
theorem clock_at_most_once_per_second (reads : List ℚ)
    (h : List.Sorted (· ≤ ·) reads) :
    List.Sorted (· < ·) (clockRun reads) ∧ (clockRun reads).Nodup := by
  have hs : List.Sorted (· < ·) (clockRun reads) := by
    cases reads with
    | nil => simp [clockRun, clockDispatch]
    | cons t rest =>
      obtain ⟨hle, hsort2⟩ := List.sorted_cons.mp h
      have hne : ⌊t⌋ % 60 ≠ (-1 : ℤ) := by
        have hnn : (0 : ℤ) ≤ ⌊t⌋ % 60 := Int.emod_nonneg _ (by norm_num)
        omega
      simp only [clockRun, clockDispatch]
      rw [if_pos hne]
      obtain ⟨ihs, ihb⟩ := clockDispatch_anchored rest t hsort2 hle
      exact List.sorted_cons.mpr ⟨ihb, ihs⟩
  exact ⟨hs, List.Pairwise.imp (fun hab => ne_of_lt hab) hs⟩

/-- Witness for `clock_at_most_once_per_second` on the concrete sorted
trace 0, 1.5, 2. -/
theorem clock_at_most_once_per_second_witness :
    List.Sorted (· ≤ ·) [(0 : ℚ), 3/2, 2] ∧
      (List.Sorted (· < ·) (clockRun [(0 : ℚ), 3/2, 2]) ∧
        (clockRun [(0 : ℚ), 3/2, 2]).Nodup) :=
  ⟨by norm_num [List.sorted_cons],
    clock_at_most_once_per_second _ (by norm_num [List.sorted_cons])⟩

/-- No region containing the key means the cross-region lookup misses. -/
theorem lookupGrids_eq_none (k : String) :
    ∀ grids : List (String × List (String × ℚ)),
      (∀ r ∈ grids, assocFind k r.2 = none) → lookupGrids grids k = none := by
  intro grids
  induction grids with
  | nil => intro _; rfl
  | cons r rest ih =>
    intro hall
    have hr : assocFind k r.2 = none := hall r (List.mem_cons_self r rest)
    simp only [lookupGrids, hr]
    exact ih (fun r2 hr2 => hall r2 (List.mem_cons_of_mem r hr2))

/-- Some region containing the key means the cross-region lookup hits. -/
theorem lookupGrids_isSome (k : String) :
    ∀ grids : List (String × List (String × ℚ)),
      (∃ r ∈ grids, (assocFind k r.2).isSome) → (lookupGrids grids k).isSome := by
  intro grids
  induction grids with
  | nil => rintro ⟨r, hr, _⟩; exact absurd hr (List.not_mem_nil r)
  | cons r rest ih =>
    rintro ⟨r2, hr2, hsome⟩
    rcases List.mem_cons.mp hr2 with rfl | hmem
    · obtain ⟨v, hv⟩ := Option.isSome_iff_exists.mp hsome
      simp [lookupGrids, hv]
    · simp only [lookupGrids]
      cases hfind : assocFind k r.2 with
      | some v => simp
      | none => exact ih ⟨r2, hmem, hsome⟩

/-- C8: `is_after_sunset` answers "unknown" (None, distinct from a boolean)
exactly when the quantized cell of the coordinate is in no registered
region, and answers a boolean when some registered region holds the
quantized cell. -/
theorem is_after_sunset_unknown_or_bool (sunset_grids : List (String × List (String × ℚ)))
    (latitude longitude now : ℚ) :
    ((∀ r ∈ sunset_grids,
        assocFind (gridKeyOf latitude longitude (1/10)) r.2 = none) →
      is_after_sunset sunset_grids latitude longitude now = none) ∧
    ((∃ r ∈ sunset_grids,
        (assocFind (gridKeyOf latitude longitude (1/10)) r.2).isSome) →
      (is_after_sunset sunset_grids latitude longitude now).isSome) := by
  constructor
  · intro hall
    have hmiss := lookupGrids_eq_none _ sunset_grids hall
    simp only [is_after_sunset, get_sunset_for_position]
    rw [hmiss]
  · intro hex
    have hhit := lookupGrids_isSome _ sunset_grids hex
    obtain ⟨v, hv⟩ := Option.isSome_iff_exists.mp hhit
    simp only [is_after_sunset, get_sunset_for_position]
    rw [hv]
    rfl

/-- Witness for `is_after_sunset_unknown_or_bool`: the coordinate (10, 10)
is covered by no registered cell of `demoGrids` and answers "unknown",
while (37.7749, -122.4194) quantizes into the registered cell
"37.8000_-122.4000" and answers a boolean. -/
theorem is_after_sunset_unknown_or_bool_witness :
    ((∀ r ∈ demoGrids, assocFind (gridKeyOf 10 10 (1/10)) r.2 = none) ∧
        is_after_sunset demoGrids 10 10 1760000000 = none) ∧
      ((∃ r ∈ demoGrids,
          (assocFind (gridKeyOf (37.7749 : ℚ) (-122.4194) (1/10)) r.2).isSome) ∧
        (is_after_sunset demoGrids 37.7749 (-122.4194) 1760000000).isSome) := by
  have hr10 : pyRound ((10 : ℚ) / (1/10)) = 100 := by
    simp only [pyRound]
    norm_num
  have hf10 : fmtFixed 4 (((100 : ℤ) : ℚ) * (1/10)) = "10.0000" := by
    rw [fmtFixed_eq_of 4 _ 100000 (by norm_num) (by simp only [pyRound]; norm_num)]
    decide
  have hk10 : gridKeyOf (10 : ℚ) 10 (1/10) = "10.0000_10.0000" := by
    rw [gridKeyOf, hr10, hf10]
    decide
  have hrsf1 : pyRound ((37.7749 : ℚ) / (1/10)) = 378 := by
    simp only [pyRound]
    norm_num
  have hrsf2 : pyRound ((-122.4194 : ℚ) / (1/10)) = -1224 := by
    simp only [pyRound]
    norm_num
  have hfsf1 : fmtFixed 4 (((378 : ℤ) : ℚ) * (1/10)) = "37.8000" := by
    rw [fmtFixed_eq_of 4 _ 378000 (by norm_num) (by simp only [pyRound]; norm_num)]
    decide
  have hfsf2 : fmtFixed 4 (((-1224 : ℤ) : ℚ) * (1/10)) = "-122.4000" := by
    rw [fmtFixed_neg_eq_of 4 _ 1224000 (by norm_num) (by simp only [pyRound]; norm_num)]
    decide
  have hksf : gridKeyOf (37.7749 : ℚ) (-122.4194) (1/10) = "37.8000_-122.4000" := by
    rw [gridKeyOf, hrsf1, hrsf2, hfsf1, hfsf2]
    decide
  have h1 : ∀ r ∈ demoGrids, assocFind (gridKeyOf (10 : ℚ) 10 (1/10)) r.2 = none := by
    simp only [hk10]
    decide
  have h2 : ∃ r ∈ demoGrids,
      (assocFind (gridKeyOf (37.7749 : ℚ) (-122.4194) (1/10)) r.2).isSome := by
    simp only [hksf]
    decide
  exact ⟨⟨h1, (is_after_sunset_unknown_or_bool demoGrids 10 10 1760000000).1 h1⟩,
    ⟨h2, (is_after_sunset_unknown_or_bool demoGrids 37.7749 (-122.4194) 1760000000).2 h2⟩⟩

/-- Every registered callback produces exactly one recorded outcome per
dispatch. -/
theorem runCallbacks_length (callbacks : List (ℚ → Except String Unit)) (now : ℚ) :
    (runCallbacks callbacks now).length = callbacks.length := by
  induction callbacks with
  | nil => rfl
  | cons c rest ih => simp [runCallbacks, ih]

/-- The dispatch schedule of the instrumented loop is the dispatch
schedule of the plain loop: observer outcomes never influence which
seconds are dispatched. -/
theorem clockDispatchFull_fst (callbacks : List (ℚ → Except String Unit)) :
    ∀ (last : ℤ) (reads : List ℚ),
      (clockDispatchFull callbacks last reads).map Prod.fst
        = clockDispatch last reads := by
  intro last reads
  induction reads generalizing last with
  | nil => rfl
  | cons t rest ih =>
    simp only [clockDispatchFull, clockDispatch]
    by_cases hc : ⌊t⌋ % 60 ≠ last
    · rw [if_pos hc, if_pos hc]
      simp [ih]
    · rw [if_neg hc, if_neg hc]
      exact ih last

/-- Every tick of the instrumented loop records one outcome per callback. -/
theorem clockDispatchFull_lengths (callbacks : List (ℚ → Except String Unit)) :
    ∀ (last : ℤ) (reads : List ℚ) (p : ℤ × List (Except String Unit)),
      p ∈ clockDispatchFull callbacks last reads → p.2.length = callbacks.length := by
  intro last reads
  induction reads generalizing last with
  | nil => intro p hp; exact absurd hp (List.not_mem_nil p)
  | cons t rest ih =>
    intro p hp
    simp only [clockDispatchFull] at hp
    by_cases hc : ⌊t⌋ % 60 ≠ last
    · rw [if_pos hc] at hp
      rcases List.mem_cons.mp hp with rfl | hmem
      · exact runCallbacks_length callbacks t
      · exact ih _ p hmem
    · rw [if_neg hc] at hp
      exact ih last p hp

/-- C6: an observer that raises during a dispatch is isolated.  On the
tick itself the raising observer contributes one logged error outcome and
every observer registered after it still runs, in order, with outcomes
unchanged; and the instrumented scheduler dispatches exactly the same
seconds as it would with any callbacks, so it keeps dispatching on
subsequent ticks and every dispatched tick runs all callbacks. -/
theorem observer_failure_isolated (pre post : List (ℚ → Except String Unit))
    (bad : ℚ → Except String Unit) (e : String) (t : ℚ)
    (callbacks : List (ℚ → Except String Unit)) (reads : List ℚ)
    (hbad : bad t = Except.error e) :
    runCallbacks (pre ++ bad :: post) t
        = runCallbacks pre t ++ Except.error e :: runCallbacks post t ∧
      (clockRunFull callbacks reads).map Prod.fst = clockRun reads ∧
      ∀ p ∈ clockRunFull callbacks reads, p.2.length = callbacks.length := by
  refine ⟨?_, clockDispatchFull_fst callbacks (-1) reads,
    fun p hp => clockDispatchFull_lengths callbacks (-1) reads p hp⟩
  induction pre with
  | nil => simp [runCallbacks, hbad]
  | cons c rest ih => simp [runCallbacks, ih]

/-- Witness for `observer_failure_isolated`: a raising observer between
two succeeding ones on the tick at time 0, and a two-second run. -/
theorem observer_failure_isolated_witness :
    badCb 0 = Except.error "boom" ∧
      (runCallbacks ([okCb] ++ badCb :: [okCb]) 0
          = runCallbacks [okCb] 0 ++ Except.error "boom" :: runCallbacks [okCb] 0 ∧
        (clockRunFull [okCb, badCb] [0, 1]).map Prod.fst = clockRun [0, 1] ∧
        ∀ p ∈ clockRunFull [okCb, badCb] [0, 1], p.2.length = [okCb, badCb].length) :=
  ⟨rfl, observer_failure_isolated [okCb] [okCb] badCb "boom" 0 [okCb, badCb] [0, 1] rfl⟩

/-- C5: `project` answers "unavailable" (None, no position) in each of the
three refusal cases: the identifier is unknown; any of latitude,
longitude, timestamp, speed or heading is missing from the stored state;
or the stored state is stale, with the target more than 15 seconds away
from the stored timestamp in either direction. -/
theorem interpolate_unavailable (positions : List (String × AircraftState))
    (icao24 : String) (t : ℝ) :
    (assocFind icao24 positions = none →
      interpolate_position positions icao24 t = Except.ok none) ∧
    (∀ st, assocFind icao24 positions = some st →
      (st.latitude = none ∨ st.longitude = none ∨ st.timestamp = none ∨
        st.velocity = none ∨ st.heading = none) →
      interpolate_position positions icao24 t = Except.ok none) ∧
    (∀ st ts, assocFind icao24 positions = some st → st.timestamp = some ts →
      |t - ts| > 15 → interpolate_position positions icao24 t = Except.ok none) := by
  refine ⟨?_, ?_, ?_⟩
  · intro h
    simp [interpolate_position, h]
  · rintro ⟨ts0, la, lo, al, ve, he, vr⟩ hfind hmiss
    cases la <;> cases lo <;> cases ts0 <;> cases ve <;> cases he <;>
      simp_all [interpolate_position]
  · rintro ⟨ts0, la, lo, al, ve, he, vr⟩ ts hfind hts h15
    simp only at hts
    subst hts
    cases la <;> cases lo <;> cases ve <;> cases he <;>
      simp_all [interpolate_position, not_lt.mpr, le_of_lt]

/-- Witness for `interpolate_unavailable`: a fully populated stored state
at timestamp 0 queried at time 100, well past the 15-second staleness
bound, is refused. -/
theorem interpolate_unavailable_witness :
    assocFind "known" [("known", staleSt)] = some staleSt ∧
      staleSt.timestamp = some 0 ∧ |(100 : ℝ) - 0| > 15 ∧
      interpolate_position [("known", staleSt)] "known" 100 = Except.ok none :=
  ⟨rfl, rfl, by norm_num,
    (interpolate_unavailable [("known", staleSt)] "known" 100).2.2 staleSt 0 rfl rfl
      (by norm_num)⟩

/-- C9 (code_bug record): with every interpolation field present but the
stored altitude absent and a nonzero vertical rate, `interpolate_position`
reaches `new_alt += vertical_rate * time_diff` with `new_alt = None` and
raises TypeError, and `process_aircraft_data` propagates that exception to
its caller instead of omitting the object, contradicting the never-raise
claim. -/
theorem interpolator_raises_on_missing_altitude :
    interpolate_position [("bad1", noAltSt)] "bad1" 3 = Except.error PyError.typeError ∧
      process_aircraft_data [("bad1", noAltSt)] [] 3 0
        = Except.error PyError.typeError := by
  have hfind : assocFind "bad1" [("bad1", noAltSt)] = some noAltSt := rfl
  have h1 : interpolate_position [("bad1", noAltSt)] "bad1" 3
      = Except.error PyError.typeError := by
    simp only [interpolate_position, hfind]
    simp only [noAltSt]
    rw [if_neg (by norm_num : ¬ |(3 : ℝ) - 0| > 15)]
    rw [if_pos (by norm_num : (5 : ℝ) ≠ 0)]
  have h2 : process_aircraft_data [("bad1", noAltSt)] [] 3 0
      = Except.error PyError.typeError := by
    simp only [process_aircraft_data, List.foldl_nil, processLoop, List.find?_nil, h1]
  exact ⟨h1, h2⟩

/-- C2 amended: when a stored state has latitude, longitude, timestamp,
speed, heading (and altitude) present and the target time is within the
staleness bound, the projected coordinate is the flat-plane dead-reckoning
approximation of the source: latitude moves by
`speed * elapsed * cos(heading) / 111320` degrees and longitude by
`speed * elapsed * sin(heading) / (111320 * cos(latitude))` degrees, not
along a spherical-earth geodesic. -/
theorem interpolate_flat_plane (positions : List (String × AircraftState))
    (icao24 : String) (t ts lat lon alt vel hdg : ℝ) (vr : Option ℝ)
    (st : AircraftState)
    (hfind : assocFind icao24 positions = some st)
    (hst : st = ⟨some ts, some lat, some lon, some alt, some vel, some hdg, vr⟩)
    (hdt : |t - ts| ≤ 15) :
    ((interpolate_position positions icao24 t).toOption.bind id).map
        InterpolatedPosition.latitude
      = some (lat + vel * (t - ts) * Real.cos (radiansOf hdg) / 111320) ∧
      ((interpolate_position positions icao24 t).toOption.bind id).map
        InterpolatedPosition.longitude
      = some (lon + vel * (t - ts) * Real.sin (radiansOf hdg)
          / (111320 * Real.cos (radiansOf lat))) := by
  subst hst
  simp only [interpolate_position, hfind]
  rw [if_neg (not_lt.mpr hdt)]
  rcases vr with _ | v
  · simp [Except.toOption]
  · by_cases hv : v ≠ 0
    · simp [hv, Except.toOption]
    · simp [hv, Except.toOption]

/-- Witness for `interpolate_flat_plane`: the fully populated state
`staleSt` projected one second ahead. -/
theorem interpolate_flat_plane_witness :
    assocFind "known2" [("known2", staleSt)] = some staleSt ∧
      staleSt = ⟨some 0, some 37, some (-122), some 1000, some 200, some 45, some 0⟩ ∧
      |(1 : ℝ) - 0| ≤ 15 ∧
      (((interpolate_position [("known2", staleSt)] "known2" 1).toOption.bind id).map
          InterpolatedPosition.latitude
        = some (37 + 200 * ((1 : ℝ) - 0) * Real.cos (radiansOf 45) / 111320) ∧
        ((interpolate_position [("known2", staleSt)] "known2" 1).toOption.bind id).map
          InterpolatedPosition.longitude
        = some (-122 + 200 * ((1 : ℝ) - 0) * Real.sin (radiansOf 45)
            / (111320 * Real.cos (radiansOf 37)))) :=
  ⟨rfl, rfl, by norm_num,
    interpolate_flat_plane [("known2", staleSt)] "known2" 1 0 37 (-122) 1000 200 45 (some 0)
      staleSt rfl rfl (by norm_num)⟩

/-- C2 counterexample: from latitude 60 heading due east (90) with
distance = speed * elapsed = 100000 * 10 = 1000000 meters, the code leaves
the latitude at exactly 60 (the flat-plane delta is proportional to
cos 90 = 0), while the spherical-earth destination latitude for the same
travel on the standard 6371 km earth radius is strictly below 60: the
interpolator does not compute the spherical destination point. -/
theorem flat_plane_not_spherical_geodesic :
    ((interpolate_position [("east60", eastAt60)] "east60" 10).toOption.bind id).map
        InterpolatedPosition.latitude = some 60 ∧
      sphericalDestLat 60 90 (100000 * 10) 6371000 < 60 := by
  have hcos90 : Real.cos (radiansOf 90) = 0 := by
    have h : radiansOf 90 = Real.pi / 2 := by
      simp only [radiansOf]
      ring
    rw [h, Real.cos_pi_div_two]
  constructor
  · have hfind : assocFind "east60" [("east60", eastAt60)] = some eastAt60 := rfl
    simp only [interpolate_position, hfind]
    simp only [eastAt60]
    rw [if_neg (by norm_num : ¬ |(10 : ℝ) - 0| > 15)]
    rw [if_neg (by norm_num : ¬ (0 : ℝ) ≠ 0)]
    simp [Except.toOption, hcos90]
  · have hrad60 : radiansOf 60 = Real.pi / 3 := by
      simp only [radiansOf]
      ring
    rw [sphericalDestLat, hrad60, hcos90]
    have hkill : Real.sin (Real.pi / 3) * Real.cos (100000 * 10 / 6371000 : ℝ)
          + Real.cos (Real.pi / 3) * Real.sin (100000 * 10 / 6371000 : ℝ) * 0
        = Real.sin (Real.pi / 3) * Real.cos (100000 * 10 / 6371000 : ℝ) := by ring
    rw [hkill, degreesOf]
    have hpipos := Real.pi_pos
    have hδpos : (0 : ℝ) < 100000 * 10 / 6371000 := by norm_num
    have hδpi : (100000 * 10 : ℝ) / 6371000 ≤ Real.pi := by
      have h3 : (100000 * 10 : ℝ) / 6371000 ≤ 3 := by norm_num
      linarith [Real.pi_gt_three]
    have hcosδ : Real.cos (100000 * 10 / 6371000 : ℝ) < 1 := by
      have h := Real.cos_lt_cos_of_nonneg_of_le_pi (le_refl (0 : ℝ)) hδpi hδpos
      simpa using h
    have hsin3pos : 0 < Real.sin (Real.pi / 3) :=
      Real.sin_pos_of_pos_of_lt_pi (by positivity) (by linarith)
    have hsin3le : Real.sin (Real.pi / 3) ≤ 1 := Real.sin_le_one _
    have hprodlt : Real.sin (Real.pi / 3) * Real.cos (100000 * 10 / 6371000 : ℝ)
        < Real.sin (Real.pi / 3) := mul_lt_of_lt_one_right hsin3pos hcosδ
    have hmem1 : Real.sin (Real.pi / 3) * Real.cos (100000 * 10 / 6371000 : ℝ)
        ∈ Set.Icc (-1 : ℝ) 1 := by
      constructor
      · nlinarith [Real.neg_one_le_cos (100000 * 10 / 6371000 : ℝ),
          Real.cos_le_one (100000 * 10 / 6371000 : ℝ)]
      · nlinarith [Real.neg_one_le_cos (100000 * 10 / 6371000 : ℝ),
          Real.cos_le_one (100000 * 10 / 6371000 : ℝ)]
    have hmem2 : Real.sin (Real.pi / 3) ∈ Set.Icc (-1 : ℝ) 1 :=
      ⟨Real.neg_one_le_sin _, Real.sin_le_one _⟩
    have harcsinlt : Real.arcsin (Real.sin (Real.pi / 3)
          * Real.cos (100000 * 10 / 6371000 : ℝ))
        < Real.arcsin (Real.sin (Real.pi / 3)) :=
      Real.strictMonoOn_arcsin hmem1 hmem2 hprodlt
    have harcsin3 : Real.arcsin (Real.sin (Real.pi / 3)) = Real.pi / 3 :=
      Real.arcsin_sin (by linarith) (by linarith)
    rw [harcsin3] at harcsinlt
    rw [div_lt_iff₀ hpipos]
    linarith
